import Mathlib

/-!
Verification development for the RCT2 S6 importer (`S6Importer.cpp`).

The definitions below are a shallow embedding of the importer's data model
and operations.  Machine integers are modelled as `Nat` with explicit masks
and `% 2^w` where overflow matters; fixed-size arrays are modelled as lists
or functions; fallible code returns explicit error values.

Constants and accessor functions whose definitions live in headers outside
the provided sources (`rct12.h`, `TileElement.h`, object limits, ...) are
modelled from the spec and marked as such in their doc comments; everything
else is translated directly from `S6Importer.cpp`.
-/

namespace S6

/-! ## Format constants

The tile element type tags.  Modelled from the spec: the type tag occupies
the upper bits of the first byte of a tile record (mask `0x3C`), the
direction the low two bits; the eight supported variants and the three
corrupt/legacy markers are the values below. -/

def TILE_ELEMENT_TYPE_SURFACE : Nat := 0
def TILE_ELEMENT_TYPE_PATH : Nat := 4
def TILE_ELEMENT_TYPE_TRACK : Nat := 8
def TILE_ELEMENT_TYPE_SMALL_SCENERY : Nat := 12
def TILE_ELEMENT_TYPE_ENTRANCE : Nat := 16
def TILE_ELEMENT_TYPE_WALL : Nat := 20
def TILE_ELEMENT_TYPE_LARGE_SCENERY : Nat := 24
def TILE_ELEMENT_TYPE_BANNER : Nat := 28

/-- Modelled from the spec: reserved corrupt/legacy marker tag. -/
def RCT12_TILE_ELEMENT_TYPE_CORRUPT : Nat := 32

/-- Modelled from the spec: reserved corrupt/legacy marker tag. -/
def RCT12_TILE_ELEMENT_TYPE_EIGHT_CARS_CORRUPT_14 : Nat := 56

/-- Modelled from the spec: reserved corrupt/legacy marker tag. -/
def RCT12_TILE_ELEMENT_TYPE_EIGHT_CARS_CORRUPT_15 : Nat := 60

/-- Modelled from the spec: the fixed tile-array capacity of the format. -/
def RCT2_MAX_TILE_ELEMENTS : Nat := 196608

/-! ## Raw tile record (`RCT12TileElement`)

An 8-byte bit-packed record: first byte packs type tag and direction, then
`flags`, `base_height`, `clearance_height`, and four bytes of
variant-specific packed storage `b4`..`b7`. -/

structure RCT12TileElement where
  type : Nat
  flags : Nat
  base_height : Nat
  clearance_height : Nat
  b4 : Nat
  b5 : Nat
  b6 : Nat
  b7 : Nat
deriving DecidableEq

def RCT12TileElement.GetType (e : RCT12TileElement) : Nat := e.type &&& 0x3C

def RCT12TileElement.GetDirection (e : RCT12TileElement) : Nat := e.type &&& 0x3

/-! Variant field getters.  Modelled from the spec: each is a pure
bit-mask/shift extraction from the record's packed storage; the headers
declaring the exact masks are not part of the provided sources, so the
layouts below fix one mask/shift per named spec field. -/

def RCT12TileElement.SurfaceGetSlope (e : RCT12TileElement) : Nat := e.b4 &&& 0x1F
def RCT12TileElement.SurfaceGetSurfaceStyle (e : RCT12TileElement) : Nat := (e.b5 &&& 0xE0) >>> 5
def RCT12TileElement.SurfaceGetEdgeStyle (e : RCT12TileElement) : Nat := (e.b4 &&& 0xE0) >>> 5
def RCT12TileElement.SurfaceGetGrassLength (e : RCT12TileElement) : Nat := e.b6
def RCT12TileElement.SurfaceGetOwnership (e : RCT12TileElement) : Nat := e.b7 &&& 0xF0
def RCT12TileElement.SurfaceGetParkFences (e : RCT12TileElement) : Nat := e.b7 &&& 0x0F
def RCT12TileElement.SurfaceGetWaterHeight (e : RCT12TileElement) : Nat := e.b5 &&& 0x1F
def RCT12TileElement.SurfaceHasTrackThatNeedsWater (e : RCT12TileElement) : Bool :=
  e.type &&& 0x40 != 0

def RCT12TileElement.PathGetEntryIndex (e : RCT12TileElement) : Nat := (e.b4 &&& 0xF0) >>> 4
def RCT12TileElement.PathGetQueueBannerDirection (e : RCT12TileElement) : Nat :=
  (e.type &&& 0xC0) >>> 6
def RCT12TileElement.PathIsSloped (e : RCT12TileElement) : Bool := e.b4 &&& 0x04 != 0
def RCT12TileElement.PathGetSlopeDirection (e : RCT12TileElement) : Nat := e.b4 &&& 0x03
def RCT12TileElement.PathGetRideIndex (e : RCT12TileElement) : Nat := e.b7
def RCT12TileElement.PathGetStationIndex (e : RCT12TileElement) : Nat := (e.b5 &&& 0x70) >>> 4
def RCT12TileElement.PathIsWide (e : RCT12TileElement) : Bool := e.type &&& 0x02 != 0
def RCT12TileElement.PathIsQueue (e : RCT12TileElement) : Bool := e.type &&& 0x01 != 0
def RCT12TileElement.PathHasQueueBanner (e : RCT12TileElement) : Bool := e.b4 &&& 0x08 != 0
def RCT12TileElement.PathGetEdges (e : RCT12TileElement) : Nat := e.b6 &&& 0x0F
def RCT12TileElement.PathGetCorners (e : RCT12TileElement) : Nat := (e.b6 &&& 0xF0) >>> 4
def RCT12TileElement.PathGetAddition (e : RCT12TileElement) : Nat := e.b5 &&& 0x0F
def RCT12TileElement.PathAdditionIsGhost (e : RCT12TileElement) : Bool := e.b5 &&& 0x80 != 0
def RCT12TileElement.PathGetAdditionStatus (e : RCT12TileElement) : Nat := e.b7

def RCT12TileElement.TrackGetTrackType (e : RCT12TileElement) : Nat := e.b4
def RCT12TileElement.TrackGetSequenceIndex (e : RCT12TileElement) : Nat := e.b5 &&& 0x0F
def RCT12TileElement.TrackGetRideIndex (e : RCT12TileElement) : Nat := e.b7
def RCT12TileElement.TrackGetColourScheme (e : RCT12TileElement) : Nat := e.b6 &&& 0x03
def RCT12TileElement.TrackGetStationIndex (e : RCT12TileElement) : Nat := (e.b5 &&& 0x70) >>> 4
def RCT12TileElement.TrackHasChain (e : RCT12TileElement) : Bool := e.type &&& 0x80 != 0
def RCT12TileElement.TrackHasCableLift (e : RCT12TileElement) : Bool := e.b6 &&& 0x08 != 0
def RCT12TileElement.TrackIsInverted (e : RCT12TileElement) : Bool := e.b6 &&& 0x40 != 0
def RCT12TileElement.TrackGetBrakeBoosterSpeed (e : RCT12TileElement) : Nat :=
  ((e.b6 &&& 0xF0) >>> 4) <<< 1
def RCT12TileElement.TrackHasGreenLight (e : RCT12TileElement) : Bool := e.b6 &&& 0x20 != 0
def RCT12TileElement.TrackGetSeatRotation (e : RCT12TileElement) : Nat := (e.b6 &&& 0xF0) >>> 4
def RCT12TileElement.TrackGetMazeEntry (e : RCT12TileElement) : Nat := e.b5 ||| (e.b6 <<< 8)
def RCT12TileElement.TrackGetPhotoTimeout (e : RCT12TileElement) : Nat := (e.b5 &&& 0xF0) >>> 4

def RCT12TileElement.SmallSceneryGetEntryIndex (e : RCT12TileElement) : Nat := e.b4
def RCT12TileElement.SmallSceneryGetAge (e : RCT12TileElement) : Nat := e.b6
def RCT12TileElement.SmallSceneryGetSceneryQuadrant (e : RCT12TileElement) : Nat :=
  (e.type &&& 0xC0) >>> 6
def RCT12TileElement.SmallSceneryGetPrimaryColour (e : RCT12TileElement) : Nat := e.b5 &&& 0x1F
def RCT12TileElement.SmallSceneryGetSecondaryColour (e : RCT12TileElement) : Nat := e.b7 &&& 0x1F
def RCT12TileElement.SmallSceneryNeedsSupports (e : RCT12TileElement) : Bool :=
  e.b5 &&& 0x20 != 0

def RCT12TileElement.EntranceGetEntranceType (e : RCT12TileElement) : Nat := e.b4
def RCT12TileElement.EntranceGetRideIndex (e : RCT12TileElement) : Nat := e.b7
def RCT12TileElement.EntranceGetStationIndex (e : RCT12TileElement) : Nat := (e.b5 &&& 0x70) >>> 4
def RCT12TileElement.EntranceGetSequenceIndex (e : RCT12TileElement) : Nat := e.b5 &&& 0x0F
def RCT12TileElement.EntranceGetPathType (e : RCT12TileElement) : Nat := e.b6

def RCT12TileElement.WallGetEntryIndex (e : RCT12TileElement) : Nat := e.b4
def RCT12TileElement.WallGetSlope (e : RCT12TileElement) : Nat := (e.type &&& 0xC0) >>> 6
def RCT12TileElement.WallGetPrimaryColour (e : RCT12TileElement) : Nat := e.b5 &&& 0x1F
def RCT12TileElement.WallGetSecondaryColour (e : RCT12TileElement) : Nat := e.b6 &&& 0x1F
def RCT12TileElement.WallGetTertiaryColour (e : RCT12TileElement) : Nat := (e.b6 &&& 0xE0) >>> 5
def RCT12TileElement.WallGetAnimationFrame (e : RCT12TileElement) : Nat := (e.b7 &&& 0xF8) >>> 3
def RCT12TileElement.WallGetBannerIndex (e : RCT12TileElement) : Nat := e.b7
def RCT12TileElement.WallIsAcrossTrack (e : RCT12TileElement) : Bool := e.b5 &&& 0x20 != 0
def RCT12TileElement.WallAnimationIsBackwards (e : RCT12TileElement) : Bool :=
  e.b5 &&& 0x40 != 0

def RCT12TileElement.LargeSceneryGetEntryIndex (e : RCT12TileElement) : Nat :=
  e.b4 ||| ((e.b5 &&& 0x03) <<< 8)
def RCT12TileElement.LargeSceneryGetSequenceIndex (e : RCT12TileElement) : Nat :=
  (e.b5 &&& 0xFC) >>> 2
def RCT12TileElement.LargeSceneryGetPrimaryColour (e : RCT12TileElement) : Nat := e.b6 &&& 0x1F
def RCT12TileElement.LargeSceneryGetSecondaryColour (e : RCT12TileElement) : Nat := e.b7 &&& 0x1F
def RCT12TileElement.LargeSceneryGetBannerIndex (e : RCT12TileElement) : Nat :=
  (e.b6 >>> 5) ||| ((e.b7 >>> 5) <<< 3)

def RCT12TileElement.BannerGetIndex (e : RCT12TileElement) : Nat := e.b4
def RCT12TileElement.BannerGetPosition (e : RCT12TileElement) : Nat := e.b5
def RCT12TileElement.BannerGetAllowedEdges (e : RCT12TileElement) : Nat := e.b6 &&& 0x0F

/-! ## Destination tile element

The destination uses explicit named fields per variant (a tagged sum),
replacing the bit-packed storage. -/

structure SurfaceElementData where
  slope : Nat
  surfaceStyle : Nat
  edgeStyle : Nat
  grassLength : Nat
  ownership : Nat
  parkFences : Nat
  waterHeight : Nat
  hasTrackThatNeedsWater : Bool
deriving DecidableEq

structure PathElementData where
  entryIndex : Nat
  queueBannerDirection : Nat
  sloped : Bool
  slopeDirection : Nat
  rideIndex : Nat
  stationIndex : Nat
  wide : Bool
  isQueue : Bool
  hasQueueBanner : Bool
  edges : Nat
  corners : Nat
  addition : Nat
  additionIsGhost : Bool
  additionStatus : Nat
deriving DecidableEq

structure TrackElementData where
  trackType : Nat
  sequenceIndex : Nat
  rideIndex : Nat
  colourScheme : Nat
  stationIndex : Nat
  hasChain : Bool
  hasCableLift : Bool
  inverted : Bool
  brakeBoosterSpeed : Nat
  hasGreenLight : Bool
  seatRotation : Nat
  mazeEntry : Nat
  photoTimeout : Nat
deriving DecidableEq

structure SmallSceneryElementData where
  entryIndex : Nat
  age : Nat
  sceneryQuadrant : Nat
  primaryColour : Nat
  secondaryColour : Nat
  needsSupports : Bool
deriving DecidableEq

structure EntranceElementData where
  entranceType : Nat
  rideIndex : Nat
  stationIndex : Nat
  sequenceIndex : Nat
  pathType : Nat
deriving DecidableEq

structure WallElementData where
  entryIndex : Nat
  slope : Nat
  primaryColour : Nat
  secondaryColour : Nat
  tertiaryColour : Nat
  animationFrame : Nat
  bannerIndex : Nat
  acrossTrack : Bool
  animationIsBackwards : Bool
deriving DecidableEq

structure LargeSceneryElementData where
  entryIndex : Nat
  sequenceIndex : Nat
  primaryColour : Nat
  secondaryColour : Nat
  bannerIndex : Nat
deriving DecidableEq

structure BannerElementData where
  index : Nat
  position : Nat
  allowedEdges : Nat
deriving DecidableEq

inductive TileElementData where
  | surface : SurfaceElementData → TileElementData
  | path : PathElementData → TileElementData
  | track : TrackElementData → TileElementData
  | smallScenery : SmallSceneryElementData → TileElementData
  | entrance : EntranceElementData → TileElementData
  | wall : WallElementData → TileElementData
  | largeScenery : LargeSceneryElementData → TileElementData
  | banner : BannerElementData → TileElementData
deriving DecidableEq

/-- Destination tile element: the common header fields plus the decoded
variant data.  `data = none` corresponds to the decoder's unreachable
default branch (`assert(false)`), which writes no variant fields. -/
structure TileElement where
  typeAndDirection : Nat
  flags : Nat
  base_height : Nat
  clearance_height : Nat
  data : Option TileElementData
deriving DecidableEq

def TileElement.GetType (e : TileElement) : Nat := e.typeAndDirection &&& 0x3C

def TileElement.GetDirection (e : TileElement) : Nat := e.typeAndDirection &&& 0x3

/-- `S6Importer::ImportTileElement`: tag-dispatched decode of one raw tile
record into a destination element.  `ClearAs` sets the type byte to the
tag, `SetDirection` then installs the low two direction bits; the switch
copies each variant's fields through the getter of the selected variant
only. -/
def ImportTileElement (src : RCT12TileElement) : TileElement :=
  let tileElementType := src.GetType
  let data : Option TileElementData :=
    if tileElementType = TILE_ELEMENT_TYPE_SURFACE then
      some (.surface
        { slope := src.SurfaceGetSlope
          surfaceStyle := src.SurfaceGetSurfaceStyle
          edgeStyle := src.SurfaceGetEdgeStyle
          grassLength := src.SurfaceGetGrassLength
          ownership := src.SurfaceGetOwnership
          parkFences := src.SurfaceGetParkFences
          waterHeight := src.SurfaceGetWaterHeight
          hasTrackThatNeedsWater := src.SurfaceHasTrackThatNeedsWater })
    else if tileElementType = TILE_ELEMENT_TYPE_PATH then
      some (.path
        { entryIndex := src.PathGetEntryIndex
          queueBannerDirection := src.PathGetQueueBannerDirection
          sloped := src.PathIsSloped
          slopeDirection := src.PathGetSlopeDirection
          rideIndex := src.PathGetRideIndex
          stationIndex := src.PathGetStationIndex
          wide := src.PathIsWide
          isQueue := src.PathIsQueue
          hasQueueBanner := src.PathHasQueueBanner
          edges := src.PathGetEdges
          corners := src.PathGetCorners
          addition := src.PathGetAddition
          additionIsGhost := src.PathAdditionIsGhost
          additionStatus := src.PathGetAdditionStatus })
    else if tileElementType = TILE_ELEMENT_TYPE_TRACK then
      some (.track
        { trackType := src.TrackGetTrackType
          sequenceIndex := src.TrackGetSequenceIndex
          rideIndex := src.TrackGetRideIndex
          colourScheme := src.TrackGetColourScheme
          stationIndex := src.TrackGetStationIndex
          hasChain := src.TrackHasChain
          hasCableLift := src.TrackHasCableLift
          inverted := src.TrackIsInverted
          brakeBoosterSpeed := src.TrackGetBrakeBoosterSpeed
          hasGreenLight := src.TrackHasGreenLight
          seatRotation := src.TrackGetSeatRotation
          mazeEntry := src.TrackGetMazeEntry
          photoTimeout := src.TrackGetPhotoTimeout })
    else if tileElementType = TILE_ELEMENT_TYPE_SMALL_SCENERY then
      some (.smallScenery
        { entryIndex := src.SmallSceneryGetEntryIndex
          age := src.SmallSceneryGetAge
          sceneryQuadrant := src.SmallSceneryGetSceneryQuadrant
          primaryColour := src.SmallSceneryGetPrimaryColour
          secondaryColour := src.SmallSceneryGetSecondaryColour
          needsSupports := src.SmallSceneryNeedsSupports })
    else if tileElementType = TILE_ELEMENT_TYPE_ENTRANCE then
      some (.entrance
        { entranceType := src.EntranceGetEntranceType
          rideIndex := src.EntranceGetRideIndex
          stationIndex := src.EntranceGetStationIndex
          sequenceIndex := src.EntranceGetSequenceIndex
          pathType := src.EntranceGetPathType })
    else if tileElementType = TILE_ELEMENT_TYPE_WALL then
      some (.wall
        { entryIndex := src.WallGetEntryIndex
          slope := src.WallGetSlope
          primaryColour := src.WallGetPrimaryColour
          secondaryColour := src.WallGetSecondaryColour
          tertiaryColour := src.WallGetTertiaryColour
          animationFrame := src.WallGetAnimationFrame
          bannerIndex := src.WallGetBannerIndex
          acrossTrack := src.WallIsAcrossTrack
          animationIsBackwards := src.WallAnimationIsBackwards })
    else if tileElementType = TILE_ELEMENT_TYPE_LARGE_SCENERY then
      some (.largeScenery
        { entryIndex := src.LargeSceneryGetEntryIndex
          sequenceIndex := src.LargeSceneryGetSequenceIndex
          primaryColour := src.LargeSceneryGetPrimaryColour
          secondaryColour := src.LargeSceneryGetSecondaryColour
          bannerIndex := src.LargeSceneryGetBannerIndex })
    else if tileElementType = TILE_ELEMENT_TYPE_BANNER then
      some (.banner
        { index := src.BannerGetIndex
          position := src.BannerGetPosition
          allowedEdges := src.BannerGetAllowedEdges })
    else
      none
  { typeAndDirection := (tileElementType &&& 0xFC) ||| (src.GetDirection &&& 0x3)
    flags := src.flags
    base_height := src.base_height
    clearance_height := src.clearance_height
    data := data }

/-- One destination tile-array slot: either a decoded element or a
byte-for-byte copy of the raw record (`std::memcpy`). -/
inductive TileSlot where
  | decoded : TileElement → TileSlot
  | rawCopy : RCT12TileElement → TileSlot
deriving DecidableEq

/-- Loop body of `S6Importer::ImportTileElements`: sentinel base height and
corrupt/legacy tags are copied verbatim, everything else is decoded. -/
def ImportTileElementOrCopy (src : RCT12TileElement) : TileSlot :=
  if src.base_height = 0xFF then
    .rawCopy src
  else if src.GetType = RCT12_TILE_ELEMENT_TYPE_CORRUPT
      ∨ src.GetType = RCT12_TILE_ELEMENT_TYPE_EIGHT_CARS_CORRUPT_14
      ∨ src.GetType = RCT12_TILE_ELEMENT_TYPE_EIGHT_CARS_CORRUPT_15 then
    .rawCopy src
  else
    .decoded (ImportTileElement src)

/-- `S6Importer::ImportTileElements`: the loop over the fixed-capacity tile
array, slot by slot in source order. -/
def ImportTileElements (srcs : List RCT12TileElement) : List TileSlot :=
  srcs.map ImportTileElementOrCopy

/-- The eight supported variant tags of C1. -/
def IsSupportedTileElementType (t : Nat) : Prop :=
  t = TILE_ELEMENT_TYPE_SURFACE ∨ t = TILE_ELEMENT_TYPE_PATH ∨ t = TILE_ELEMENT_TYPE_TRACK
    ∨ t = TILE_ELEMENT_TYPE_SMALL_SCENERY ∨ t = TILE_ELEMENT_TYPE_ENTRANCE
    ∨ t = TILE_ELEMENT_TYPE_WALL ∨ t = TILE_ELEMENT_TYPE_LARGE_SCENERY
    ∨ t = TILE_ELEMENT_TYPE_BANNER

instance (t : Nat) : Decidable (IsSupportedTileElementType t) := by
  unfold IsSupportedTileElementType; infer_instance

/-- Specification-side decode (follows the claim's words): for the variant
selected by the tag, each named destination field is the corresponding
bit-mask/shift extraction from the raw record's packed storage, and no
field of any other variant is produced. -/
def decodedDataSpec (src : RCT12TileElement) : Option TileElementData :=
  if src.GetType = TILE_ELEMENT_TYPE_SURFACE then
    some (.surface
      { slope := src.b4 &&& 0x1F
        surfaceStyle := (src.b5 &&& 0xE0) >>> 5
        edgeStyle := (src.b4 &&& 0xE0) >>> 5
        grassLength := src.b6
        ownership := src.b7 &&& 0xF0
        parkFences := src.b7 &&& 0x0F
        waterHeight := src.b5 &&& 0x1F
        hasTrackThatNeedsWater := src.type &&& 0x40 != 0 })
  else if src.GetType = TILE_ELEMENT_TYPE_PATH then
    some (.path
      { entryIndex := (src.b4 &&& 0xF0) >>> 4
        queueBannerDirection := (src.type &&& 0xC0) >>> 6
        sloped := src.b4 &&& 0x04 != 0
        slopeDirection := src.b4 &&& 0x03
        rideIndex := src.b7
        stationIndex := (src.b5 &&& 0x70) >>> 4
        wide := src.type &&& 0x02 != 0
        isQueue := src.type &&& 0x01 != 0
        hasQueueBanner := src.b4 &&& 0x08 != 0
        edges := src.b6 &&& 0x0F
        corners := (src.b6 &&& 0xF0) >>> 4
        addition := src.b5 &&& 0x0F
        additionIsGhost := src.b5 &&& 0x80 != 0
        additionStatus := src.b7 })
  else if src.GetType = TILE_ELEMENT_TYPE_TRACK then
    some (.track
      { trackType := src.b4
        sequenceIndex := src.b5 &&& 0x0F
        rideIndex := src.b7
        colourScheme := src.b6 &&& 0x03
        stationIndex := (src.b5 &&& 0x70) >>> 4
        hasChain := src.type &&& 0x80 != 0
        hasCableLift := src.b6 &&& 0x08 != 0
        inverted := src.b6 &&& 0x40 != 0
        brakeBoosterSpeed := ((src.b6 &&& 0xF0) >>> 4) <<< 1
        hasGreenLight := src.b6 &&& 0x20 != 0
        seatRotation := (src.b6 &&& 0xF0) >>> 4
        mazeEntry := src.b5 ||| (src.b6 <<< 8)
        photoTimeout := (src.b5 &&& 0xF0) >>> 4 })
  else if src.GetType = TILE_ELEMENT_TYPE_SMALL_SCENERY then
    some (.smallScenery
      { entryIndex := src.b4
        age := src.b6
        sceneryQuadrant := (src.type &&& 0xC0) >>> 6
        primaryColour := src.b5 &&& 0x1F
        secondaryColour := src.b7 &&& 0x1F
        needsSupports := src.b5 &&& 0x20 != 0 })
  else if src.GetType = TILE_ELEMENT_TYPE_ENTRANCE then
    some (.entrance
      { entranceType := src.b4
        rideIndex := src.b7
        stationIndex := (src.b5 &&& 0x70) >>> 4
        sequenceIndex := src.b5 &&& 0x0F
        pathType := src.b6 })
  else if src.GetType = TILE_ELEMENT_TYPE_WALL then
    some (.wall
      { entryIndex := src.b4
        slope := (src.type &&& 0xC0) >>> 6
        primaryColour := src.b5 &&& 0x1F
        secondaryColour := src.b6 &&& 0x1F
        tertiaryColour := (src.b6 &&& 0xE0) >>> 5
        animationFrame := (src.b7 &&& 0xF8) >>> 3
        bannerIndex := src.b7
        acrossTrack := src.b5 &&& 0x20 != 0
        animationIsBackwards := src.b5 &&& 0x40 != 0 })
  else if src.GetType = TILE_ELEMENT_TYPE_LARGE_SCENERY then
    some (.largeScenery
      { entryIndex := src.b4 ||| ((src.b5 &&& 0x03) <<< 8)
        sequenceIndex := (src.b5 &&& 0xFC) >>> 2
        primaryColour := src.b6 &&& 0x1F
        secondaryColour := src.b7 &&& 0x1F
        bannerIndex := (src.b6 >>> 5) ||| ((src.b7 >>> 5) <<< 3) })
  else if src.GetType = TILE_ELEMENT_TYPE_BANNER then
    some (.banner
      { index := src.b4
        position := src.b5
        allowedEdges := src.b6 &&& 0x0F })
  else
    none

/-! ## Header, checksum and chunk layout (`S6Importer::LoadFromStream`) -/

/-- Modelled from the spec: format type tag for saved games. -/
def S6_TYPE_SAVEDGAME : Nat := 0x21

/-- Modelled from the spec: format type tag for scenarios. -/
def S6_TYPE_SCENARIO : Nat := 0x22

/-- The destination fields the chunk reads target, in `rct_s6_data` order. -/
inductive ChunkField where
  | header
  | info
  | objects
  | elapsedMonths
  | tileElements
  | nextFreeTileElementPointerIndex
  | guestsInPark
  | lastGuestsInPark
  | parkRating
  | activeResearchTypes
  | currentExpenditure
  | parkValue
  | completedCompanyValue
deriving DecidableEq

/-- Modelled from the spec: `sizeof(_s6.header)`. -/
def SIZEOF_S6_HEADER : Nat := 32

/-- Modelled from the spec: `sizeof(_s6.info)`. -/
def SIZEOF_S6_INFO : Nat := 408

/-- Modelled from the spec: `sizeof(_s6.objects)` (721 entries of 16 bytes). -/
def SIZEOF_S6_OBJECTS : Nat := 11536

/-- Modelled from the spec: `sizeof(_s6.tile_elements)` (capacity × 8 bytes). -/
def SIZEOF_S6_TILE_ELEMENTS : Nat := RCT2_MAX_TILE_ELEMENTS * 8

/-- The chunk reads performed on the scenario path of `LoadFromStream`,
in program order, with the byte size passed to `ReadChunk`. -/
def scenarioChunkSequence : List (ChunkField × Nat) :=
  [ (ChunkField.header, SIZEOF_S6_HEADER)
  , (ChunkField.info, SIZEOF_S6_INFO)
  , (ChunkField.objects, SIZEOF_S6_OBJECTS)
  , (ChunkField.elapsedMonths, 16)
  , (ChunkField.tileElements, SIZEOF_S6_TILE_ELEMENTS)
  , (ChunkField.nextFreeTileElementPointerIndex, 2560076)
  , (ChunkField.guestsInPark, 4)
  , (ChunkField.lastGuestsInPark, 8)
  , (ChunkField.parkRating, 2)
  , (ChunkField.activeResearchTypes, 1082)
  , (ChunkField.currentExpenditure, 16)
  , (ChunkField.parkValue, 4)
  , (ChunkField.completedCompanyValue, 483816) ]

/-- The chunk reads performed on the saved-game path of `LoadFromStream`,
in program order, with the byte size passed to `ReadChunk`. -/
def savedGameChunkSequence : List (ChunkField × Nat) :=
  [ (ChunkField.header, SIZEOF_S6_HEADER)
  , (ChunkField.objects, SIZEOF_S6_OBJECTS)
  , (ChunkField.elapsedMonths, 16)
  , (ChunkField.tileElements, SIZEOF_S6_TILE_ELEMENTS)
  , (ChunkField.nextFreeTileElementPointerIndex, 3048816) ]

structure S6Header where
  type : Nat
  classic_flag : Nat
  num_packed_objects : Nat
deriving DecidableEq

/-- The inputs of `LoadFromStream` that determine its control flow: whether
the whole-stream checksum pass validates (modelled from the spec, as
`SawyerEncoding::ValidateChecksum` is outside the provided sources) and the
fixed-size header. -/
structure S6StreamModel where
  checksumValid : Bool
  header : S6Header
deriving DecidableEq

/-- The typed errors `LoadFromStream` can raise:
`invalidChecksum` is the `IOException("Invalid checksum.")`,
`parkIsNotAScenario` / `parkIsNotASavedGame` the two
`std::runtime_error`s, and `unsupportedRCTCFlag` the
`UnsupportedRCTCFlagException`. -/
inductive S6LoadError where
  | invalidChecksum
  | parkIsNotAScenario
  | parkIsNotASavedGame
  | unsupportedRCTCFlag
deriving DecidableEq

/-- `S6Importer::LoadFromStream` control flow: returns the chunk reads
performed (in order) together with the error that aborted the call, if
any.  `allowIncorrectChecksum` is
`gConfigGeneral.allow_loading_with_incorrect_checksum`. -/
def LoadFromStream (allowIncorrectChecksum : Bool) (isScenario : Bool) (s : S6StreamModel) :
    List ChunkField × Option S6LoadError :=
  if isScenario && !allowIncorrectChecksum && !s.checksumValid then
    ([], some S6LoadError.invalidChecksum)
  else
    let afterHeader : List ChunkField := [ChunkField.header]
    if isScenario then
      if s.header.type ≠ S6_TYPE_SCENARIO then
        (afterHeader, some S6LoadError.parkIsNotAScenario)
      else
        let afterInfo := afterHeader ++ [ChunkField.info]
        if s.header.classic_flag = 0xf then
          (afterInfo, some S6LoadError.unsupportedRCTCFlag)
        else
          (afterInfo ++ (scenarioChunkSequence.drop 2).map Prod.fst, none)
    else
      if s.header.type ≠ S6_TYPE_SAVEDGAME then
        (afterHeader, some S6LoadError.parkIsNotASavedGame)
      else if s.header.classic_flag = 0xf then
        (afterHeader, some S6LoadError.unsupportedRCTCFlag)
      else
        (afterHeader ++ (savedGameChunkSequence.drop 1).map Prod.fst, none)

/-! ## Peep spawns (`S6Importer::ImportPeepSpawns`) -/

/-- Modelled from the spec: sentinel x-coordinate of an unused spawn. -/
def PEEP_SPAWN_UNDEFINED : Nat := 0xFFFF

/-- Modelled from the spec: the legacy format stores two spawn slots. -/
def RCT12_MAX_PEEP_SPAWNS : Nat := 2

structure RawPeepSpawn where
  x : Nat
  y : Nat
  z : Nat
  direction : Nat
deriving DecidableEq

structure PeepSpawn where
  x : Nat
  y : Nat
  z : Nat
  direction : Nat
deriving DecidableEq

/-- The migration loop of `ImportPeepSpawns` (after the quirk fixups):
spawns with the sentinel x are dropped, the rest are appended in source
order with z rescaled by 16. -/
def ImportPeepSpawnsLoop (spawns : List RawPeepSpawn) : List PeepSpawn :=
  spawns.foldl
    (fun gPeepSpawns s =>
      if s.x ≠ PEEP_SPAWN_UNDEFINED then
        gPeepSpawns ++ [{ x := s.x, y := s.y, z := s.z * 16, direction := s.direction }]
      else
        gPeepSpawns)
    []

/-- The two fixed spawn slots of `rct_s6_data`. -/
structure S6PeepSpawns where
  s0 : RawPeepSpawn
  s1 : RawPeepSpawn
deriving DecidableEq

/-- The filename-keyed quirk fixups at the top of `ImportPeepSpawns`,
keyed on `_s6.scenario_filename` by exact string equality. -/
def applyPeepSpawnQuirks (scenario_filename : String) (sp : S6PeepSpawns) : S6PeepSpawns :=
  if scenario_filename = "WW South America - Rio Carnival.SC6"
      ∨ scenario_filename = "South America - Rio Carnival.SC6" then
    { s0 := { x := 2160, y := 3167, z := 6, direction := 1 }
      s1 := { sp.s1 with x := PEEP_SPAWN_UNDEFINED } }
  else if scenario_filename = "Great Wall of China Tourism Enhancement.SC6"
      ∨ scenario_filename = "Asia - Great Wall of China Tourism Enhancement.SC6" then
    { sp with s1 := { sp.s1 with x := PEEP_SPAWN_UNDEFINED } }
  else if scenario_filename = "Amity Airfield.SC6" then
    { sp with s0 := { sp.s0 with y := 1296 } }
  else
    sp

/-- Modelled from the spec: land ownership per tile coordinate. -/
def OWNERSHIP_OWNED : Nat := 0x20

/-- The tile list of the European Cultural Festival fixup in `Import`. -/
def europeanCulturalFestivalTiles : List (Nat × Nat) :=
  [ (67, 94), (68, 94), (69, 94)
  , (58, 24), (58, 25), (58, 26), (58, 27), (58, 28), (58, 29), (58, 30), (58, 31), (58, 32)
  , (26, 44), (26, 45)
  , (32, 79), (32, 80), (32, 81) ]

/-- Modelled from the spec: `FixLandOwnershipTilesWithOwnership` sets the
ownership of each tile in the explicit coordinate list. -/
def FixLandOwnershipTilesWithOwnership (tiles : List (Nat × Nat)) (ownership : Nat)
    (landOwnership : Nat × Nat → Nat) : Nat × Nat → Nat :=
  fun c => if c ∈ tiles then ownership else landOwnership c

/-- The filename-keyed quirk fixup at the end of `Import`, keyed on
`_s6.scenario_filename` by exact string equality. -/
def applyLandOwnershipQuirk (scenario_filename : String)
    (landOwnership : Nat × Nat → Nat) : Nat × Nat → Nat :=
  if scenario_filename = "Europe - European Cultural Festival.SC6" then
    FixLandOwnershipTilesWithOwnership europeanCulturalFestivalTiles OWNERSHIP_OWNED landOwnership
  else
    landOwnership

/-- Every filename with a registered quirk entry, across both quirk sites. -/
def quirkFilenames : List String :=
  [ "WW South America - Rio Carnival.SC6"
  , "South America - Rio Carnival.SC6"
  , "Great Wall of China Tourism Enhancement.SC6"
  , "Asia - Great Wall of China Tourism Enhancement.SC6"
  , "Amity Airfield.SC6"
  , "Europe - European Cultural Festival.SC6" ]

/-! ## Rider recount (`S6Importer::ImportNumRiders`) -/

/-- Modelled from the spec: the source format's sprite capacity. -/
def RCT2_MAX_SPRITES : Nat := 10000

/-- Modelled from the spec: sprite identifier tag for peeps. -/
def SPRITE_IDENTIFIER_PEEP : Nat := 1

/-- Modelled from the spec: peep state "on ride". -/
def PEEP_STATE_ON_RIDE : Nat := 3

/-- Modelled from the spec: peep state "entering ride". -/
def PEEP_STATE_ENTERING_RIDE : Nat := 7

/-- The fields of a raw `rct_sprite` that `ImportNumRiders` reads:
`generic.sprite_identifier`, `peep.current_ride` and `peep.state`. -/
structure RctSpriteSrc where
  sprite_identifier : Nat
  current_ride : Nat
  state : Nat
deriving DecidableEq

/-- A sprite that counts as a rider of ride `rideIndex`. -/
def SpriteIsRiderOf (rideIndex : Nat) (s : RctSpriteSrc) : Prop :=
  s.sprite_identifier = SPRITE_IDENTIFIER_PEEP
    ∧ (s.current_ride = rideIndex
        ∧ (s.state = PEEP_STATE_ON_RIDE ∨ s.state = PEEP_STATE_ENTERING_RIDE))

instance (rideIndex : Nat) (s : RctSpriteSrc) : Decidable (SpriteIsRiderOf rideIndex s) := by
  unfold SpriteIsRiderOf; infer_instance

/-- `S6Importer::ImportNumRiders`: recomputes a ride's rider count by
scanning the raw sprite array; the counter is a `uint16_t`, hence the
`% 65536`. -/
def ImportNumRiders (sprites : List RctSpriteSrc) (rideIndex : Nat) : Nat :=
  sprites.foldl
    (fun numRiders sprite =>
      if sprite.sprite_identifier = SPRITE_IDENTIFIER_PEEP then
        if sprite.current_ride = rideIndex
            ∧ (sprite.state = PEEP_STATE_ON_RIDE ∨ sprite.state = PEEP_STATE_ENTERING_RIDE) then
          (numRiders + 1) % 65536
        else
          numRiders
      else
        numRiders)
    0

/-- The rider count `ImportRide` stores: it calls `ImportNumRiders` and
never reads a stored per-ride rider counter from the source record (the
first argument models that stored counter and is ignored, as in the code). -/
def importRideNumRiders (_srcStoredRiderCount : Nat) (sprites : List RctSpriteSrc)
    (rideIndex : Nat) : Nat :=
  ImportNumRiders sprites rideIndex

/-! ## Research bitmaps (`S6Importer::ImportResearched*`) -/

/-- Modelled from the spec: number of ride types. -/
def RIDE_TYPE_COUNT : Nat := 90

/-- Modelled from the spec: number of ride entry objects. -/
def MAX_RIDE_OBJECTS : Nat := 128

/-- Modelled from the spec: number of researched scenery item slots. -/
def RCT2_MAX_RESEARCHED_SCENERY_ITEMS : Nat := 1792

/-- Modelled from the spec: baseline marking every item "not invented". -/
def setEveryItemNotInvented : Nat → Bool := fun _ => false

/-- Modelled from the spec: marking a single item "invented". -/
def setItemInvented (invented : Nat → Bool) (item : Nat) : Nat → Bool :=
  Function.update invented item true

/-- Common shape of the three bitmap decoders: baseline everything "not
invented", then for each index in range set "invented" when bit
`(index & 31)` of word `(index >> 5)` is set. `bits` is the fixed-size
bit array, indexed by 32-bit word. -/
def importInventedBitmap (count : Nat) (bits : Nat → Nat) : Nat → Bool :=
  (List.range count).foldl
    (fun invented index =>
      if bits (index >>> 5) &&& (1 <<< (index &&& 0x1F)) ≠ 0 then
        setItemInvented invented index
      else
        invented)
    setEveryItemNotInvented

/-- `S6Importer::ImportResearchedRideTypes`. -/
def ImportResearchedRideTypes (researched_ride_types : Nat → Nat) : Nat → Bool :=
  importInventedBitmap RIDE_TYPE_COUNT researched_ride_types

/-- `S6Importer::ImportResearchedRideEntries`. -/
def ImportResearchedRideEntries (researched_ride_entries : Nat → Nat) : Nat → Bool :=
  importInventedBitmap MAX_RIDE_OBJECTS researched_ride_entries

/-- `S6Importer::ImportResearchedSceneryItems`. -/
def ImportResearchedSceneryItems (researched_scenery_items : Nat → Nat) : Nat → Bool :=
  importInventedBitmap RCT2_MAX_RESEARCHED_SCENERY_ITEMS researched_scenery_items

/-! ## Ride entrance/exit migration (`S6Importer::ImportRide`) -/

/-- Modelled from the spec: legacy per-ride station limit. -/
def RCT12_MAX_STATIONS_PER_RIDE : Nat := 4

/-- A packed legacy tile coordinate (`rct_xy8`): `x` in the low byte, `y`
in the high byte of `xy`. -/
structure RctXY8 where
  x : Nat
  y : Nat
deriving DecidableEq

def RctXY8.xy (c : RctXY8) : Nat := c.x ||| (c.y <<< 8)

/-- Modelled from the spec: sentinel for an undefined packed coordinate. -/
def RCT_XY8_UNDEFINED : Nat := 0xFFFF

structure CoordsXYZD where
  x : Nat
  y : Nat
  z : Nat
  direction : Nat
deriving DecidableEq

/-- The exit-location migration for one station in `ImportRide`
(`none` models `ride_clear_exit_location`, `some` models
`ride_set_exit_location` with the passed coordinates).  As in the source,
the x/y written come from `entrances[i]`, while `exits[i]` is consulted
only for the undefined-sentinel test. -/
def importRideExitLocation (entrance exitCoord : RctXY8) (stationHeight : Nat) :
    Option CoordsXYZD :=
  if exitCoord.xy = RCT_XY8_UNDEFINED then
    none
  else
    some { x := entrance.x, y := entrance.y, z := stationHeight, direction := 0 }

/-- The per-station exit migration over the legacy station range. -/
def importRideExitLocations (entrances exits : Fin RCT12_MAX_STATIONS_PER_RIDE → RctXY8)
    (stationHeights : Fin RCT12_MAX_STATIONS_PER_RIDE → Nat) :
    Fin RCT12_MAX_STATIONS_PER_RIDE → Option CoordsXYZD :=
  fun i => importRideExitLocation (entrances i) (exits i) (stationHeights i)

/-! ## Theorems -/

theorem importPeepSpawnsLoop_go (spawns : List RawPeepSpawn) (acc : List PeepSpawn) :
    spawns.foldl
      (fun gPeepSpawns s =>
        if s.x ≠ PEEP_SPAWN_UNDEFINED then
          gPeepSpawns ++ [{ x := s.x, y := s.y, z := s.z * 16, direction := s.direction }]
        else
          gPeepSpawns)
      acc
    = acc
      ++ (spawns.filter (fun s => decide (s.x ≠ PEEP_SPAWN_UNDEFINED))).map
          (fun s => { x := s.x, y := s.y, z := s.z * 16, direction := s.direction : PeepSpawn }) := by
  induction spawns generalizing acc with
  | nil => simp
  | cons a t ih =>
    rw [List.foldl_cons, List.filter_cons]
    by_cases ha : a.x = PEEP_SPAWN_UNDEFINED
    · rw [if_neg (fun hc => hc ha), if_neg (by simp [ha])]
      exact ih acc
    · rw [if_pos ha, if_pos (by simp [ha]), ih]
      simp

/-- C6: every raw peep-spawn entry with the sentinel x-coordinate is
dropped; every other entry yields a destination spawn with the same x, y
and direction and with z rescaled by 16, in source index order. -/
theorem c6_peep_spawn_migration (spawns : List RawPeepSpawn) :
    ImportPeepSpawnsLoop spawns
      = (spawns.filter (fun s => decide (s.x ≠ PEEP_SPAWN_UNDEFINED))).map
          (fun s => { x := s.x, y := s.y, z := s.z * 16, direction := s.direction : PeepSpawn }) := by
  unfold ImportPeepSpawnsLoop
  simpa using importPeepSpawnsLoop_go spawns []

theorem importNumRiders_go (rideIndex : Nat) (l : List RctSpriteSrc) (acc : Nat)
    (h : acc + l.countP (fun s => decide (SpriteIsRiderOf rideIndex s)) < 65536) :
    l.foldl
      (fun numRiders sprite =>
        if sprite.sprite_identifier = SPRITE_IDENTIFIER_PEEP then
          if sprite.current_ride = rideIndex
              ∧ (sprite.state = PEEP_STATE_ON_RIDE ∨ sprite.state = PEEP_STATE_ENTERING_RIDE) then
            (numRiders + 1) % 65536
          else
            numRiders
        else
          numRiders)
      acc
    = acc + l.countP (fun s => decide (SpriteIsRiderOf rideIndex s)) := by
  induction l generalizing acc with
  | nil => simp
  | cons a t ih =>
    rw [List.countP_cons] at h ⊢
    by_cases h1 : a.sprite_identifier = SPRITE_IDENTIFIER_PEEP
    · by_cases h2 : a.current_ride = rideIndex
          ∧ (a.state = PEEP_STATE_ON_RIDE ∨ a.state = PEEP_STATE_ENTERING_RIDE)
      · have hp : SpriteIsRiderOf rideIndex a := ⟨h1, h2⟩
        rw [List.foldl_cons, if_pos h1, if_pos h2]
        rw [decide_eq_true hp] at h ⊢
        simp only [if_true] at h ⊢
        have hlt : acc + 1 < 65536 := by omega
        rw [Nat.mod_eq_of_lt hlt, ih (acc + 1) (by omega)]
        omega
      · have hp : ¬SpriteIsRiderOf rideIndex a := fun hc => h2 hc.2
        rw [List.foldl_cons, if_pos h1, if_neg h2]
        rw [decide_eq_false hp] at h ⊢
        simp only [Bool.false_eq_true, if_false] at h ⊢
        rw [ih acc (by omega)]
        omega
    · have hp : ¬SpriteIsRiderOf rideIndex a := fun hc => h1 hc.1
      rw [List.foldl_cons, if_neg h1]
      rw [decide_eq_false hp] at h ⊢
      simp only [Bool.false_eq_true, if_false] at h ⊢
      rw [ih acc (by omega)]
      omega

/-- C7: the imported rider count of a ride equals the number of raw
sprites that are peeps currently on (or entering) that ride; the stored
per-ride counter (`srcStoredRiderCount`) is ignored. -/
theorem c7_num_riders_recomputed (sprites : List RctSpriteSrc) (rideIndex : Nat)
    (srcStoredRiderCount : Nat) (hcap : sprites.length ≤ RCT2_MAX_SPRITES) :
    ImportNumRiders sprites rideIndex
        = sprites.countP (fun s => decide (SpriteIsRiderOf rideIndex s))
      ∧ importRideNumRiders srcStoredRiderCount sprites rideIndex
        = sprites.countP (fun s => decide (SpriteIsRiderOf rideIndex s)) := by
  have hcount : sprites.countP (fun s => decide (SpriteIsRiderOf rideIndex s))
      ≤ sprites.length := List.countP_le_length _
  have h : (0 : Nat) + sprites.countP (fun s => decide (SpriteIsRiderOf rideIndex s)) < 65536 := by
    have := hcap
    unfold RCT2_MAX_SPRITES at this
    omega
  have hmain : ImportNumRiders sprites rideIndex
      = sprites.countP (fun s => decide (SpriteIsRiderOf rideIndex s)) := by
    unfold ImportNumRiders
    simpa using importNumRiders_go rideIndex sprites 0 h
  exact ⟨hmain, hmain⟩

/-- Concrete witness for C7: three sprites, exactly one of which is a peep
on ride 3. -/
theorem c7_num_riders_witness :
    ([⟨1, 3, 3⟩, ⟨1, 3, 0⟩, ⟨0, 3, 3⟩] : List RctSpriteSrc).length ≤ RCT2_MAX_SPRITES
      ∧ (ImportNumRiders [⟨1, 3, 3⟩, ⟨1, 3, 0⟩, ⟨0, 3, 3⟩] 3
          = ([⟨1, 3, 3⟩, ⟨1, 3, 0⟩, ⟨0, 3, 3⟩] : List RctSpriteSrc).countP
              (fun s => decide (SpriteIsRiderOf 3 s))
        ∧ importRideNumRiders 555 [⟨1, 3, 3⟩, ⟨1, 3, 0⟩, ⟨0, 3, 3⟩] 3
          = ([⟨1, 3, 3⟩, ⟨1, 3, 0⟩, ⟨0, 3, 3⟩] : List RctSpriteSrc).countP
              (fun s => decide (SpriteIsRiderOf 3 s))) :=
  ⟨by decide, c7_num_riders_recomputed [⟨1, 3, 3⟩, ⟨1, 3, 0⟩, ⟨0, 3, 3⟩] 3 555 (by decide)⟩

theorem setItemInvented_apply (invented : Nat → Bool) (item i : Nat) :
    setItemInvented invented item i = if i = item then true else invented i := by
  unfold setItemInvented
  rw [Function.update_apply]

theorem importInventedBitmap_go (bits : Nat → Nat) (n : Nat) (f : Nat → Bool) (i : Nat) :
    ((List.range n).foldl
        (fun invented index =>
          if bits (index >>> 5) &&& (1 <<< (index &&& 0x1F)) ≠ 0 then
            setItemInvented invented index
          else
            invented)
        f) i
      = ((decide (i < n) && decide (bits (i >>> 5) &&& (1 <<< (i &&& 0x1F)) ≠ 0)) || f i) := by
  induction n with
  | zero => simp
  | succ n ih =>
    rw [List.range_succ, List.foldl_append, List.foldl_cons, List.foldl_nil]
    by_cases hg : bits (n >>> 5) &&& (1 <<< (n &&& 0x1F)) ≠ 0
    · rw [if_pos hg, setItemInvented_apply]
      by_cases hi : i = n
      · subst hi
        rw [if_pos rfl, decide_eq_true hg, decide_eq_true (Nat.lt_succ_self i)]
        simp
      · rw [if_neg hi, ih]
        have hdc : decide (i < n) = decide (i < n + 1) := decide_eq_decide.mpr (by omega)
        rw [hdc]
    · rw [if_neg hg, ih]
      by_cases hi : i = n
      · subst hi
        rw [decide_eq_false hg]
        have h1 : decide (i < i) = false := decide_eq_false (lt_irrefl i)
        have h2 : decide (i < i + 1) = true := decide_eq_true (Nat.lt_succ_self i)
        rw [h1, h2]
        simp
      · have hdc : decide (i < n) = decide (i < n + 1) := decide_eq_decide.mpr (by omega)
        rw [hdc]

/-- Bit array with only bit 5 of word 0 set, for the C8 example. -/
def onlyBitFive : Nat → Nat := fun quadIndex => if quadIndex = 0 then 32 else 0

/-- C8: each of the three bitmap decoders starts from "everything not
invented" and marks index `i` invented exactly when bit `(i & 31)` of word
`(i >> 5)` of its bit array is set and `i` is in range; with only bit 5
set, index 5 decodes invented while 4 and 6 do not. -/
theorem c8_research_bitmap_decode (rideTypeBits rideEntryBits sceneryBits : Nat → Nat)
    (i : Nat) :
    ImportResearchedRideTypes rideTypeBits i
        = (decide (i < RIDE_TYPE_COUNT)
            && decide (rideTypeBits (i >>> 5) &&& (1 <<< (i &&& 0x1F)) ≠ 0))
      ∧ ImportResearchedRideEntries rideEntryBits i
        = (decide (i < MAX_RIDE_OBJECTS)
            && decide (rideEntryBits (i >>> 5) &&& (1 <<< (i &&& 0x1F)) ≠ 0))
      ∧ ImportResearchedSceneryItems sceneryBits i
        = (decide (i < RCT2_MAX_RESEARCHED_SCENERY_ITEMS)
            && decide (sceneryBits (i >>> 5) &&& (1 <<< (i &&& 0x1F)) ≠ 0))
      ∧ ImportResearchedRideTypes onlyBitFive 5 = true
      ∧ ImportResearchedRideTypes onlyBitFive 4 = false
      ∧ ImportResearchedRideTypes onlyBitFive 6 = false := by
  have hmain : ∀ (bits : Nat → Nat) (count j : Nat),
      importInventedBitmap count bits j
        = (decide (j < count) && decide (bits (j >>> 5) &&& (1 <<< (j &&& 0x1F)) ≠ 0)) := by
    intro bits count j
    unfold importInventedBitmap
    rw [importInventedBitmap_go bits count setEveryItemNotInvented j]
    unfold setEveryItemNotInvented
    simp
  refine ⟨hmain _ _ i, hmain _ _ i, hmain _ _ i, ?_, ?_, ?_⟩
  · rw [ImportResearchedRideTypes, hmain onlyBitFive RIDE_TYPE_COUNT 5]
    decide
  · rw [ImportResearchedRideTypes, hmain onlyBitFive RIDE_TYPE_COUNT 4]
    decide
  · rw [ImportResearchedRideTypes, hmain onlyBitFive RIDE_TYPE_COUNT 6]
    decide

/-- C9: for a filename with no registered quirk entry, both quirk sites
(the peep-spawn fixups and the land-ownership fixup) leave the state
unchanged. -/
theorem c9_quirk_no_match_noop (scenario_filename : String) (sp : S6PeepSpawns)
    (landOwnership : Nat × Nat → Nat) (h : scenario_filename ∉ quirkFilenames) :
    applyPeepSpawnQuirks scenario_filename sp = sp
      ∧ applyLandOwnershipQuirk scenario_filename landOwnership = landOwnership := by
  simp only [quirkFilenames, List.mem_cons, List.not_mem_nil, or_false, not_or] at h
  obtain ⟨h1, h2, h3, h4, h5, h6⟩ := h
  constructor
  · unfold applyPeepSpawnQuirks
    rw [if_neg (by simp [h1, h2]), if_neg (by simp [h3, h4]), if_neg h5]
  · unfold applyLandOwnershipQuirk
    rw [if_neg h6]

/-- Sample land-ownership state for the C9 witness. -/
def c9SampleOwnership : Nat × Nat → Nat := fun _ => 7

/-- Sample spawn slots for the C9 witness. -/
def c9SampleSpawns : S6PeepSpawns :=
  { s0 := { x := 100, y := 100, z := 5, direction := 1 }
    s1 := { x := 200, y := 300, z := 6, direction := 2 } }

/-- Concrete witness for C9: an unregistered filename is a no-op at both
quirk sites. -/
theorem c9_quirk_no_match_witness :
    "Mega Park.SC6" ∉ quirkFilenames
      ∧ (applyPeepSpawnQuirks "Mega Park.SC6" c9SampleSpawns = c9SampleSpawns
        ∧ applyLandOwnershipQuirk "Mega Park.SC6" c9SampleOwnership = c9SampleOwnership) :=
  ⟨by decide, c9_quirk_no_match_noop "Mega Park.SC6" c9SampleSpawns c9SampleOwnership (by decide)⟩

/-- C10: for every station in the legacy range, when the source exit
coordinate is not the undefined sentinel the migrated exit location takes
its x and y from the source entrance record (`entrances[i]`) and its z from
the station height; when it is the sentinel, the exit location is cleared. -/
theorem c10_exit_uses_entrance_coords
    (entrances exits : Fin RCT12_MAX_STATIONS_PER_RIDE → RctXY8)
    (stationHeights : Fin RCT12_MAX_STATIONS_PER_RIDE → Nat)
    (i : Fin RCT12_MAX_STATIONS_PER_RIDE) :
    ((exits i).xy ≠ RCT_XY8_UNDEFINED →
      importRideExitLocations entrances exits stationHeights i
        = some { x := (entrances i).x, y := (entrances i).y, z := stationHeights i
                 direction := 0 })
    ∧ ((exits i).xy = RCT_XY8_UNDEFINED →
      importRideExitLocations entrances exits stationHeights i = none) := by
  constructor
  · intro h
    unfold importRideExitLocations importRideExitLocation
    rw [if_neg h]
  · intro h
    unfold importRideExitLocations importRideExitLocation
    rw [if_pos h]

/-- Station index 0 for the C10 witness. -/
def c10Station0 : Fin RCT12_MAX_STATIONS_PER_RIDE := ⟨0, by decide⟩

/-- Sample entrance coordinates for the C10 witness. -/
def c10Entrances : Fin RCT12_MAX_STATIONS_PER_RIDE → RctXY8 := fun _ => { x := 10, y := 20 }

/-- Sample exit coordinates for the C10 witness (distinct from the
entrances, so the theorem instance shows the exit record's coordinates are
ignored). -/
def c10Exits : Fin RCT12_MAX_STATIONS_PER_RIDE → RctXY8 := fun _ => { x := 30, y := 40 }

/-- Sample station heights for the C10 witness. -/
def c10Heights : Fin RCT12_MAX_STATIONS_PER_RIDE → Nat := fun _ => 12

/-- Concrete witness for C10: with entrance (10,20), exit (30,40) and
station height 12, the migrated exit is (10,20,12) — the exit record's own
coordinates are ignored. -/
theorem c10_exit_uses_entrance_witness :
    (c10Exits c10Station0).xy ≠ RCT_XY8_UNDEFINED
      ∧ importRideExitLocations c10Entrances c10Exits c10Heights c10Station0
          = some { x := (c10Entrances c10Station0).x, y := (c10Entrances c10Station0).y
                   z := c10Heights c10Station0, direction := 0 } :=
  ⟨by decide,
   (c10_exit_uses_entrance_coords c10Entrances c10Exits c10Heights c10Station0).1 (by decide)⟩

/-- The C3 claim, instantiated on the saved-game path: with checksum
enforcement enabled (`allow = false`) and an invalid checksum, the import
neither raises the checksum error nor stops before reading chunks — the
saved-game path never validates the checksum, refuting the claim that the
configuration flag alone controls validation on both paths. -/
theorem c3_savedgame_checksum_counterexample :
    (LoadFromStream false false
        { checksumValid := false
          header := { type := S6_TYPE_SAVEDGAME, classic_flag := 0, num_packed_objects := 0 } }).2
      ≠ some S6LoadError.invalidChecksum
    ∧ (LoadFromStream false false
        { checksumValid := false
          header := { type := S6_TYPE_SAVEDGAME, classic_flag := 0, num_packed_objects := 0 } }).2
      = none := by
  constructor
  · decide
  · decide

/-- C3 (amended): checksum validation runs only on the scenario path and
there it is controlled by the configuration flag: with enforcement on and
an invalid checksum the checksum error is raised before any chunk is read;
with enforcement off, or a valid checksum, no checksum error is raised;
the saved-game path never raises a checksum error. -/
theorem c3_checksum_control_amended (allowIncorrectChecksum isScenario : Bool)
    (s : S6StreamModel) :
    (isScenario = true → allowIncorrectChecksum = false → s.checksumValid = false →
      LoadFromStream allowIncorrectChecksum isScenario s
        = ([], some S6LoadError.invalidChecksum))
    ∧ (allowIncorrectChecksum = true ∨ s.checksumValid = true →
      (LoadFromStream allowIncorrectChecksum isScenario s).2 ≠ some S6LoadError.invalidChecksum)
    ∧ (isScenario = false →
      (LoadFromStream allowIncorrectChecksum isScenario s).2 ≠ some S6LoadError.invalidChecksum) := by
  refine ⟨?_, ?_, ?_⟩
  · intro h1 h2 h3
    subst h1; subst h2
    unfold LoadFromStream
    rw [h3]
    simp
  · intro h
    unfold LoadFromStream
    have hc : (isScenario && !allowIncorrectChecksum && !s.checksumValid) = false := by
      rcases h with h | h <;> simp [h]
    rw [hc]
    simp only [Bool.false_eq_true, if_false]
    split
    · split
      · simp
      · split
        · simp
        · simp
    · split
      · simp
      · split
        · simp
        · simp
  · intro h
    subst h
    unfold LoadFromStream
    simp only [Bool.false_and, Bool.false_eq_true, if_false]
    split
    · simp
    · split
      · simp
      · simp

/-- Concrete witness for C3 (amended): on the scenario path with
enforcement on and a bad checksum the checksum error is raised before any
chunk read; on the saved-game path no checksum error is raised. -/
theorem c3_checksum_control_witness :
    (LoadFromStream false true
        { checksumValid := false
          header := { type := S6_TYPE_SCENARIO, classic_flag := 0, num_packed_objects := 0 } }
      = ([], some S6LoadError.invalidChecksum))
    ∧ (LoadFromStream true true
        { checksumValid := false
          header := { type := S6_TYPE_SCENARIO, classic_flag := 0, num_packed_objects := 0 } }).2
      ≠ some S6LoadError.invalidChecksum
    ∧ (LoadFromStream false false
        { checksumValid := true
          header := { type := S6_TYPE_SAVEDGAME, classic_flag := 0, num_packed_objects := 0 } }).2
      ≠ some S6LoadError.invalidChecksum :=
  ⟨(c3_checksum_control_amended false true
      { checksumValid := false
        header := { type := S6_TYPE_SCENARIO, classic_flag := 0, num_packed_objects := 0 } }).1
      rfl rfl rfl,
   (c3_checksum_control_amended true true
      { checksumValid := false
        header := { type := S6_TYPE_SCENARIO, classic_flag := 0, num_packed_objects := 0 } }).2.1
      (Or.inl rfl),
   (c3_checksum_control_amended false false
      { checksumValid := true
        header := { type := S6_TYPE_SAVEDGAME, classic_flag := 0, num_packed_objects := 0 } }).2.2
      rfl⟩

/-- The C4 claim as stated: after setting aside the scenario-info entry,
the two chunk sequences have the same chunk count and order and differ in
exactly two chunk sizes. -/
def c4ClaimStatement : Prop :=
  (scenarioChunkSequence.filter (fun c => decide (c.1 ≠ ChunkField.info))).length
      = savedGameChunkSequence.length
    ∧ (∀ p ∈ (scenarioChunkSequence.filter
          (fun c => decide (c.1 ≠ ChunkField.info))).zip savedGameChunkSequence,
        p.1.1 = p.2.1)
    ∧ (((scenarioChunkSequence.filter
          (fun c => decide (c.1 ≠ ChunkField.info))).zip savedGameChunkSequence).filter
        (fun p => decide (p.1.2 ≠ p.2.2))).length = 2

/-- The C4 claim is false on the sequences read by `LoadFromStream`: even
ignoring the scenario-info block, the scenario layout performs 12 chunk
reads and the saved-game layout only 5, so the difference is not limited
to two chunk sizes. -/
theorem c4_chunk_layout_counterexample :
    (scenarioChunkSequence.filter (fun c => decide (c.1 ≠ ChunkField.info))).length = 12
      ∧ savedGameChunkSequence.length = 5
      ∧ ¬c4ClaimStatement := by
  refine ⟨by decide, by decide, ?_⟩
  intro h
  have h1 := h.1
  revert h1
  decide

/-- C4 (amended): both layouts read the header, objects, elapsed-months
and tile-elements chunks identically (same order and sizes), with the
scenario layout inserting the scenario-info chunk after the header; the
chunk following tile-elements is read by both but with different sizes
(2560076 vs 3048816); the scenario layout then reads seven further chunks
that the saved-game layout does not read at all. -/
theorem c4_chunk_layout_amended :
    (scenarioChunkSequence.filter (fun c => decide (c.1 ≠ ChunkField.info))).take 4
        = savedGameChunkSequence.take 4
      ∧ (scenarioChunkSequence.filter (fun c => decide (c.1 ≠ ChunkField.info))).drop 4
        = [ (ChunkField.nextFreeTileElementPointerIndex, 2560076)
          , (ChunkField.guestsInPark, 4)
          , (ChunkField.lastGuestsInPark, 8)
          , (ChunkField.parkRating, 2)
          , (ChunkField.activeResearchTypes, 1082)
          , (ChunkField.currentExpenditure, 16)
          , (ChunkField.parkValue, 4)
          , (ChunkField.completedCompanyValue, 483816) ]
      ∧ savedGameChunkSequence.drop 4
        = [ (ChunkField.nextFreeTileElementPointerIndex, 3048816) ]
      ∧ scenarioChunkSequence.take 2
        = [ (ChunkField.header, SIZEOF_S6_HEADER), (ChunkField.info, SIZEOF_S6_INFO) ] := by
  refine ⟨by decide, by decide, by decide, by decide⟩

/-- The C5 claim, instantiated: loading a saved-game-tagged stream through
the scenario path raises the "Park is not a scenario" format error, not
the unsupported-format error the claim names — while still aborting the
load. -/
theorem c5_type_mismatch_counterexample :
    (LoadFromStream true true
        { checksumValid := true
          header := { type := S6_TYPE_SAVEDGAME, classic_flag := 0, num_packed_objects := 0 } }).2
      ≠ some S6LoadError.unsupportedRCTCFlag
    ∧ (LoadFromStream true true
        { checksumValid := true
          header := { type := S6_TYPE_SAVEDGAME, classic_flag := 0, num_packed_objects := 0 } }).2
      = some S6LoadError.parkIsNotAScenario := by
  constructor
  · decide
  · decide

/-- C5 (amended): past the checksum stage, a header type tag that does not
match the selected layout raises the plain "Park is not a scenario"/"Park
is not a saved game" format error; the classic-flag sentinel 0xf (checked
after the type tag matches) raises the unsupported-format error; in every
case the load aborts immediately at that point, with no retry. -/
theorem c5_header_errors_amended (allowIncorrectChecksum isScenario : Bool) (s : S6StreamModel)
    (hck : isScenario = false ∨ allowIncorrectChecksum = true ∨ s.checksumValid = true) :
    (isScenario = true → s.header.type ≠ S6_TYPE_SCENARIO →
      LoadFromStream allowIncorrectChecksum isScenario s
        = ([ChunkField.header], some S6LoadError.parkIsNotAScenario))
    ∧ (isScenario = false → s.header.type ≠ S6_TYPE_SAVEDGAME →
      LoadFromStream allowIncorrectChecksum isScenario s
        = ([ChunkField.header], some S6LoadError.parkIsNotASavedGame))
    ∧ (isScenario = true → s.header.type = S6_TYPE_SCENARIO → s.header.classic_flag = 0xf →
      LoadFromStream allowIncorrectChecksum isScenario s
        = ([ChunkField.header, ChunkField.info], some S6LoadError.unsupportedRCTCFlag))
    ∧ (isScenario = false → s.header.type = S6_TYPE_SAVEDGAME → s.header.classic_flag = 0xf →
      LoadFromStream allowIncorrectChecksum isScenario s
        = ([ChunkField.header], some S6LoadError.unsupportedRCTCFlag)) := by
  have hc : (isScenario && !allowIncorrectChecksum && !s.checksumValid) = false := by
    rcases hck with h | h | h <;> simp [h]
  refine ⟨?_, ?_, ?_, ?_⟩
  · intro h1 h2
    subst h1
    unfold LoadFromStream
    rw [hc]
    simp [h2]
  · intro h1 h2
    subst h1
    unfold LoadFromStream
    simp [h2]
  · intro h1 h2 h3
    subst h1
    unfold LoadFromStream
    rw [hc]
    simp [h2, h3]
  · intro h1 h2 h3
    subst h1
    unfold LoadFromStream
    simp [h2, h3]

/-- Concrete witness for C5 (amended): each of the four abort cases at a
concrete input. -/
theorem c5_header_errors_witness :
    LoadFromStream true true
        { checksumValid := true
          header := { type := S6_TYPE_SAVEDGAME, classic_flag := 0, num_packed_objects := 0 } }
      = ([ChunkField.header], some S6LoadError.parkIsNotAScenario)
    ∧ LoadFromStream true false
        { checksumValid := true
          header := { type := S6_TYPE_SCENARIO, classic_flag := 0, num_packed_objects := 0 } }
      = ([ChunkField.header], some S6LoadError.parkIsNotASavedGame)
    ∧ LoadFromStream true true
        { checksumValid := true
          header := { type := S6_TYPE_SCENARIO, classic_flag := 0xf, num_packed_objects := 0 } }
      = ([ChunkField.header, ChunkField.info], some S6LoadError.unsupportedRCTCFlag)
    ∧ LoadFromStream true false
        { checksumValid := true
          header := { type := S6_TYPE_SAVEDGAME, classic_flag := 0xf, num_packed_objects := 0 } }
      = ([ChunkField.header], some S6LoadError.unsupportedRCTCFlag) :=
  ⟨(c5_header_errors_amended true true
      { checksumValid := true
        header := { type := S6_TYPE_SAVEDGAME, classic_flag := 0, num_packed_objects := 0 } }
      (Or.inr (Or.inl rfl))).1 rfl (by decide),
   (c5_header_errors_amended true false
      { checksumValid := true
        header := { type := S6_TYPE_SCENARIO, classic_flag := 0, num_packed_objects := 0 } }
      (Or.inl rfl)).2.1 rfl (by decide),
   (c5_header_errors_amended true true
      { checksumValid := true
        header := { type := S6_TYPE_SCENARIO, classic_flag := 0xf, num_packed_objects := 0 } }
      (Or.inr (Or.inl rfl))).2.2.1 rfl rfl rfl,
   (c5_header_errors_amended true false
      { checksumValid := true
        header := { type := S6_TYPE_SAVEDGAME, classic_flag := 0xf, num_packed_objects := 0 } }
      (Or.inl rfl)).2.2.2 rfl rfl rfl⟩

theorem tile_type_dir_bits (t d : Nat)
    (ht : t = 0 ∨ t = 4 ∨ t = 8 ∨ t = 12 ∨ t = 16 ∨ t = 20 ∨ t = 24 ∨ t = 28)
    (hd : d ≤ 3) :
    (((t &&& 0xFC) ||| (d &&& 0x3)) &&& 0x3C = t)
      ∧ (((t &&& 0xFC) ||| (d &&& 0x3)) &&& 0x3 = d) := by
  rcases ht with rfl | rfl | rfl | rfl | rfl | rfl | rfl | rfl <;>
    interval_cases d <;> exact ⟨by decide, by decide⟩

/-- C1: a raw tile record with a supported tag and a non-sentinel base
height is decoded (not copied); the decoded element's type, direction,
flags, base height and clearance height equal the source's, and its
variant data consists exactly of the selected variant's named fields, each
the bit-mask/shift extraction given by `decodedDataSpec` — no field of any
other variant is produced. -/
theorem c1_import_tile_element_decodes_variant_fields (src : RCT12TileElement)
    (hbh : src.base_height ≠ 0xFF) (hsup : IsSupportedTileElementType src.GetType) :
    ImportTileElementOrCopy src = TileSlot.decoded (ImportTileElement src)
      ∧ (ImportTileElement src).GetType = src.GetType
      ∧ (ImportTileElement src).GetDirection = src.GetDirection
      ∧ (ImportTileElement src).flags = src.flags
      ∧ (ImportTileElement src).base_height = src.base_height
      ∧ (ImportTileElement src).clearance_height = src.clearance_height
      ∧ (ImportTileElement src).data = decodedDataSpec src := by
  have hd : src.GetDirection ≤ 3 := Nat.and_le_right
  have hb := tile_type_dir_bits src.GetType src.GetDirection
    (by
      rcases hsup with h | h | h | h | h | h | h | h <;>
        simp [h, TILE_ELEMENT_TYPE_SURFACE, TILE_ELEMENT_TYPE_PATH, TILE_ELEMENT_TYPE_TRACK,
          TILE_ELEMENT_TYPE_SMALL_SCENERY, TILE_ELEMENT_TYPE_ENTRANCE, TILE_ELEMENT_TYPE_WALL,
          TILE_ELEMENT_TYPE_LARGE_SCENERY, TILE_ELEMENT_TYPE_BANNER])
    hd
  refine ⟨?_, ?_, ?_, rfl, rfl, rfl, ?_⟩
  · unfold ImportTileElementOrCopy
    rw [if_neg hbh, if_neg]
    rcases hsup with h | h | h | h | h | h | h | h <;>
      simp [h, TILE_ELEMENT_TYPE_SURFACE, TILE_ELEMENT_TYPE_PATH, TILE_ELEMENT_TYPE_TRACK,
        TILE_ELEMENT_TYPE_SMALL_SCENERY, TILE_ELEMENT_TYPE_ENTRANCE, TILE_ELEMENT_TYPE_WALL,
        TILE_ELEMENT_TYPE_LARGE_SCENERY, TILE_ELEMENT_TYPE_BANNER,
        RCT12_TILE_ELEMENT_TYPE_CORRUPT, RCT12_TILE_ELEMENT_TYPE_EIGHT_CARS_CORRUPT_14,
        RCT12_TILE_ELEMENT_TYPE_EIGHT_CARS_CORRUPT_15]
  · show (ImportTileElement src).typeAndDirection &&& 0x3C = src.GetType
    exact hb.1
  · show (ImportTileElement src).typeAndDirection &&& 0x3 = src.GetDirection
    exact hb.2
  · rcases hsup with h | h | h | h | h | h | h | h <;>
      · show (ImportTileElement src).data = decodedDataSpec src
        unfold ImportTileElement decodedDataSpec
        rw [h]
        simp [TILE_ELEMENT_TYPE_SURFACE, TILE_ELEMENT_TYPE_PATH, TILE_ELEMENT_TYPE_TRACK,
          TILE_ELEMENT_TYPE_SMALL_SCENERY, TILE_ELEMENT_TYPE_ENTRANCE, TILE_ELEMENT_TYPE_WALL,
          TILE_ELEMENT_TYPE_LARGE_SCENERY, TILE_ELEMENT_TYPE_BANNER,
          RCT12TileElement.SurfaceGetSlope, RCT12TileElement.SurfaceGetSurfaceStyle,
          RCT12TileElement.SurfaceGetEdgeStyle, RCT12TileElement.SurfaceGetGrassLength,
          RCT12TileElement.SurfaceGetOwnership, RCT12TileElement.SurfaceGetParkFences,
          RCT12TileElement.SurfaceGetWaterHeight, RCT12TileElement.SurfaceHasTrackThatNeedsWater,
          RCT12TileElement.PathGetEntryIndex, RCT12TileElement.PathGetQueueBannerDirection,
          RCT12TileElement.PathIsSloped, RCT12TileElement.PathGetSlopeDirection,
          RCT12TileElement.PathGetRideIndex, RCT12TileElement.PathGetStationIndex,
          RCT12TileElement.PathIsWide, RCT12TileElement.PathIsQueue,
          RCT12TileElement.PathHasQueueBanner, RCT12TileElement.PathGetEdges,
          RCT12TileElement.PathGetCorners, RCT12TileElement.PathGetAddition,
          RCT12TileElement.PathAdditionIsGhost, RCT12TileElement.PathGetAdditionStatus,
          RCT12TileElement.TrackGetTrackType, RCT12TileElement.TrackGetSequenceIndex,
          RCT12TileElement.TrackGetRideIndex, RCT12TileElement.TrackGetColourScheme,
          RCT12TileElement.TrackGetStationIndex, RCT12TileElement.TrackHasChain,
          RCT12TileElement.TrackHasCableLift, RCT12TileElement.TrackIsInverted,
          RCT12TileElement.TrackGetBrakeBoosterSpeed, RCT12TileElement.TrackHasGreenLight,
          RCT12TileElement.TrackGetSeatRotation, RCT12TileElement.TrackGetMazeEntry,
          RCT12TileElement.TrackGetPhotoTimeout,
          RCT12TileElement.SmallSceneryGetEntryIndex, RCT12TileElement.SmallSceneryGetAge,
          RCT12TileElement.SmallSceneryGetSceneryQuadrant,
          RCT12TileElement.SmallSceneryGetPrimaryColour,
          RCT12TileElement.SmallSceneryGetSecondaryColour,
          RCT12TileElement.SmallSceneryNeedsSupports,
          RCT12TileElement.EntranceGetEntranceType, RCT12TileElement.EntranceGetRideIndex,
          RCT12TileElement.EntranceGetStationIndex, RCT12TileElement.EntranceGetSequenceIndex,
          RCT12TileElement.EntranceGetPathType,
          RCT12TileElement.WallGetEntryIndex, RCT12TileElement.WallGetSlope,
          RCT12TileElement.WallGetPrimaryColour, RCT12TileElement.WallGetSecondaryColour,
          RCT12TileElement.WallGetTertiaryColour, RCT12TileElement.WallGetAnimationFrame,
          RCT12TileElement.WallGetBannerIndex, RCT12TileElement.WallIsAcrossTrack,
          RCT12TileElement.WallAnimationIsBackwards,
          RCT12TileElement.LargeSceneryGetEntryIndex,
          RCT12TileElement.LargeSceneryGetSequenceIndex,
          RCT12TileElement.LargeSceneryGetPrimaryColour,
          RCT12TileElement.LargeSceneryGetSecondaryColour,
          RCT12TileElement.LargeSceneryGetBannerIndex,
          RCT12TileElement.BannerGetIndex, RCT12TileElement.BannerGetPosition,
          RCT12TileElement.BannerGetAllowedEdges]

/-- Sample raw surface record for the C1 witness (tag Surface,
direction 3, non-sentinel heights, packed payload bits set). -/
def c1Sample : RCT12TileElement :=
  { type := 0x43, flags := 7, base_height := 5, clearance_height := 9
    b4 := 0x3F, b5 := 0xAB, b6 := 0x12, b7 := 0x35 }

/-- Concrete witness for C1 at a surface record. -/
theorem c1_import_tile_element_witness :
    c1Sample.base_height ≠ 0xFF
      ∧ IsSupportedTileElementType c1Sample.GetType
      ∧ (ImportTileElementOrCopy c1Sample = TileSlot.decoded (ImportTileElement c1Sample)
        ∧ (ImportTileElement c1Sample).GetType = c1Sample.GetType
        ∧ (ImportTileElement c1Sample).GetDirection = c1Sample.GetDirection
        ∧ (ImportTileElement c1Sample).flags = c1Sample.flags
        ∧ (ImportTileElement c1Sample).base_height = c1Sample.base_height
        ∧ (ImportTileElement c1Sample).clearance_height = c1Sample.clearance_height
        ∧ (ImportTileElement c1Sample).data = decodedDataSpec c1Sample) :=
  ⟨by decide, by decide,
   c1_import_tile_element_decodes_variant_fields c1Sample (by decide) (by decide)⟩

/-- C2: a raw record whose base height is the 0xFF sentinel, or whose tag
is one of the corrupt/legacy markers, is copied byte-for-byte into its
destination slot and never decoded; every other record is decoded; and the
destination tile array has exactly one slot per source slot, so a
capacity-sized source yields a capacity-sized destination. -/
theorem c2_sentinel_and_corrupt_passthrough (srcs : List RCT12TileElement)
    (src : RCT12TileElement) (hcap : srcs.length = RCT2_MAX_TILE_ELEMENTS)
    (hraw : src.base_height = 0xFF
      ∨ src.GetType = RCT12_TILE_ELEMENT_TYPE_CORRUPT
      ∨ src.GetType = RCT12_TILE_ELEMENT_TYPE_EIGHT_CARS_CORRUPT_14
      ∨ src.GetType = RCT12_TILE_ELEMENT_TYPE_EIGHT_CARS_CORRUPT_15) :
    ImportTileElementOrCopy src = TileSlot.rawCopy src
      ∧ (ImportTileElements srcs).length = RCT2_MAX_TILE_ELEMENTS
      ∧ (∀ s : RCT12TileElement, s.base_height ≠ 0xFF
          → s.GetType ≠ RCT12_TILE_ELEMENT_TYPE_CORRUPT
          → s.GetType ≠ RCT12_TILE_ELEMENT_TYPE_EIGHT_CARS_CORRUPT_14
          → s.GetType ≠ RCT12_TILE_ELEMENT_TYPE_EIGHT_CARS_CORRUPT_15
          → ImportTileElementOrCopy s = TileSlot.decoded (ImportTileElement s)) := by
  refine ⟨?_, ?_, ?_⟩
  · unfold ImportTileElementOrCopy
    by_cases hb : src.base_height = 0xFF
    · rw [if_pos hb]
    · rw [if_neg hb, if_pos]
      rcases hraw with h | h | h | h
      · exact absurd h hb
      · exact Or.inl h
      · exact Or.inr (Or.inl h)
      · exact Or.inr (Or.inr h)
  · unfold ImportTileElements
    rw [List.length_map, hcap]
  · intro s h1 h2 h3 h4
    unfold ImportTileElementOrCopy
    rw [if_neg h1, if_neg]
    intro hc
    rcases hc with h | h | h
    · exact h2 h
    · exact h3 h
    · exact h4 h

/-- Sample sentinel record (base height 0xFF) for the C2 witness. -/
def c2Sample : RCT12TileElement :=
  { type := 0x17, flags := 3, base_height := 0xFF, clearance_height := 0
    b4 := 1, b5 := 2, b6 := 3, b7 := 4 }

/-- Sample ordinary surface record (decoded, not copied) for the C2
witness. -/
def c2DecodedSample : RCT12TileElement :=
  { type := 0, flags := 0, base_height := 1, clearance_height := 2
    b4 := 0, b5 := 0, b6 := 0, b7 := 0 }

/-- Concrete witness for C2: a capacity-sized array of sentinel records,
plus one ordinary record that is decoded rather than copied. -/
theorem c2_passthrough_witness :
    (List.replicate RCT2_MAX_TILE_ELEMENTS c2Sample).length = RCT2_MAX_TILE_ELEMENTS
      ∧ (c2Sample.base_height = 0xFF
          ∨ c2Sample.GetType = RCT12_TILE_ELEMENT_TYPE_CORRUPT
          ∨ c2Sample.GetType = RCT12_TILE_ELEMENT_TYPE_EIGHT_CARS_CORRUPT_14
          ∨ c2Sample.GetType = RCT12_TILE_ELEMENT_TYPE_EIGHT_CARS_CORRUPT_15)
      ∧ ImportTileElementOrCopy c2Sample = TileSlot.rawCopy c2Sample
      ∧ (ImportTileElements (List.replicate RCT2_MAX_TILE_ELEMENTS c2Sample)).length
          = RCT2_MAX_TILE_ELEMENTS
      ∧ ImportTileElementOrCopy c2DecodedSample
          = TileSlot.decoded (ImportTileElement c2DecodedSample) :=
  ⟨List.length_replicate _ _, Or.inl rfl,
   (c2_sentinel_and_corrupt_passthrough (List.replicate RCT2_MAX_TILE_ELEMENTS c2Sample) c2Sample
     (List.length_replicate _ _) (Or.inl rfl)).1,
   (c2_sentinel_and_corrupt_passthrough (List.replicate RCT2_MAX_TILE_ELEMENTS c2Sample) c2Sample
     (List.length_replicate _ _) (Or.inl rfl)).2.1,
   (c2_sentinel_and_corrupt_passthrough (List.replicate RCT2_MAX_TILE_ELEMENTS c2Sample) c2Sample
     (List.length_replicate _ _) (Or.inl rfl)).2.2 c2DecodedSample (by decide) (by decide)
     (by decide) (by decide)⟩

end S6
